import Mathlib

/-!
Verification development for a repository holding two scripts:

* `main.py` — a Flask web application that loads a CSV of movie metadata
  (columns `vote_average`, `genre`, `country`), cleans it, computes grouped
  average ratings, renders three chart files, and serves the results through
  two HTTP routes (`/` and POST `/analyze`).
* `iris-classifier.py` — a one-shot script that loads the built-in iris
  dataset (150 samples), splits it 80/20, fits a 3-nearest-neighbours
  classifier, and prints the accuracy percentage.

The Python code is shallowly embedded: dataframes become lists of records,
pandas missing values (`NaN`) become `Option` `none`, fallible I/O becomes
`Except`, and the pseudo-random shuffle of `train_test_split` becomes an
explicit permutation parameter.
-/

namespace MovieRatings

/-- A raw CSV cell of the `vote_average` column as produced by `pd.read_csv`:
either missing (`NaN`), a present but non-numeric string, or a numeric value.
`pd.to_numeric(..., errors='coerce')` maps the middle case to `NaN`. -/
inductive Cell where
  | na : Cell
  | str (s : String) : Cell
  | num (q : ℚ) : Cell
deriving DecidableEq

/-- A row of the CSV as read by `pd.read_csv`, restricted to the three columns
the script uses. `none` models a missing value (`NaN`). -/
structure RawRow where
  vote_average : Cell
  genre : Option String
  country : Option String
deriving DecidableEq

/-- A row of the cleaned dataframe returned by `load_and_preprocess_data`.
After `to_numeric(..., errors='coerce')` the `vote_average` column can still
hold `NaN`, modelled as `none`. -/
structure Row where
  vote_average : Option ℚ
  genre : String
  country : String
deriving DecidableEq

/-- `pd.to_numeric(x, errors='coerce')` on a single cell: numeric values pass
through, anything else becomes `NaN` (`none`). -/
def toNumericCoerce : Cell → Option ℚ
  | Cell.na => none
  | Cell.str _ => none
  | Cell.num q => some q

/-- The `df['country'].replace({'United States': 'USA', 'United Kingdom': 'UK'})`
call of `load_and_preprocess_data`. -/
def replaceCountry (c : String) : String :=
  if c = "United States" then "USA"
  else if c = "United Kingdom" then "UK"
  else c

/-- `load_and_preprocess_data` from `main.py`, applied to the rows read from
the CSV file. It mirrors the source order exactly:
1. `df.dropna(subset=['vote_average', 'genre', 'country'])` — drop rows with a
   missing (`NaN`) value in any of the three columns;
2. `df['vote_average'] = pd.to_numeric(df['vote_average'], errors='coerce')`;
3. `df['country'] = df['country'].replace({...})`.
Note that the coercion runs after the `dropna`, so a present but non-numeric
`vote_average` survives step 1 and is turned into `NaN` in step 2. -/
def load_and_preprocess_data (rows : List RawRow) : List Row :=
  rows.filterMap fun raw =>
    match raw.genre, raw.country with
    | some g, some c =>
        if raw.vote_average = Cell.na then none
        else some { vote_average := toNumericCoerce raw.vote_average
                    genre := g
                    country := replaceCountry c }
    | _, _ => none

/-- The `vote_average` values of the rows of `df` whose `key` column equals
`k` — the series a pandas `groupby(key)[' vote_average']` group holds. -/
def votesFor (df : List Row) (key : Row → String) (k : String) : List (Option ℚ) :=
  (df.filter fun r => key r == k).map Row.vote_average

/-- `pandas.Series.mean()` with its default `skipna=True`: the arithmetic mean
of the present values, `NaN` (`none`) when no value is present. -/
def meanSkipNa (vs : List (Option ℚ)) : Option ℚ :=
  let present := vs.filterMap id
  if present.isEmpty then none else some (present.sum / (present.length : ℚ))

/-- `df.groupby(key)['vote_average'].mean()` as a list of `(key, mean)` pairs.
pandas returns the groups with sorted keys; the key order is modelled only up
to permutation (via `dedup`), which is faithful for every downstream use in
the script: the series is either re-sorted by value (`sort_values`) or
converted to a dict. -/
def groupbyMean (df : List Row) (key : Row → String) : List (String × Option ℚ) :=
  ((df.map key).dedup).map fun k => (k, meanSkipNa (votesFor df key k))

/-- The value of a series entry, read in `WithBot ℚ` so that `NaN` (`none`)
compares below every number — matching pandas `sort_values`, whose default
`na_position='last'` puts `NaN` entries at the end of a descending sort. -/
def ratingVal (x : String × Option ℚ) : WithBot ℚ := x.2

/-- The ordering used by `.sort_values(ascending=False)`: an entry comes
before another when its value is at least as large. -/
def descRel (a b : String × Option ℚ) : Prop := ratingVal b ≤ ratingVal a

instance : DecidableRel descRel :=
  fun a b => inferInstanceAs (Decidable (ratingVal b ≤ ratingVal a))

instance : IsTotal (String × Option ℚ) descRel :=
  ⟨fun a b => (le_total (ratingVal a) (ratingVal b)).symm⟩

instance : IsTrans (String × Option ℚ) descRel :=
  ⟨fun _ _ _ hab hbc => le_trans hbc hab⟩

/-- `series.sort_values(ascending=False)`: sort the entries by descending
value, `NaN` last. Insertion sort is stable, like pandas' default. -/
def sort_values_desc (s : List (String × Option ℚ)) : List (String × Option ℚ) :=
  List.insertionSort descRel s

/-- One entry of
`df.pivot_table(values='vote_average', index='genre', columns='country', aggfunc='mean')`:
the mean (skipping `NaN`) of `vote_average` over the rows with genre `g` and
country `c`; `none` when the combination has no numeric value. -/
def pivot_table_mean (df : List Row) (g c : String) : Option ℚ :=
  meanSkipNa ((df.filter fun r => r.genre == g && r.country == c).map Row.vote_average)

/-- `analyze_ratings` from `main.py`: genre means sorted descending, country
means sorted descending, and the genre × country pivot table. -/
def analyze_ratings (df : List Row) :
    List (String × Option ℚ) × List (String × Option ℚ) × (String → String → Option ℚ) :=
  (sort_values_desc (groupbyMean df Row.genre),
   sort_values_desc (groupbyMean df Row.country),
   fun g c => pivot_table_mean df g c)

/-- HTTP methods used by the app's routes. -/
inductive Method where
  | GET : Method
  | POST : Method
deriving DecidableEq

/-- The routes registered on the Flask app in `main.py`: `@app.route('/')`
(Flask's default method GET) and `@app.route('/analyze', methods=['POST'])`. -/
def routes : List (String × List Method) :=
  [("/", [Method.GET]), ("/analyze", [Method.POST])]

/-- The home route handler `index`: it renders the static template
`index.html` with no dynamic data. -/
def index_page : String := "index.html"

/-- `request.form.get(k)`: the value of the first form field named `k`, or
`None` when the field is absent. -/
def formGet (form : List (String × String)) (k : String) : Option String :=
  (form.find? fun p => p.1 == k).map Prod.snd

/-- The filtering step of the `/analyze` handler:
`if genre: filtered_df = filtered_df[filtered_df['genre'] == genre]` and then
the same for `country`. Python truthiness: `None` and the empty string skip
the filter. -/
def filterByForm (df : List Row) (genre country : Option String) : List Row :=
  let df1 := match genre with
    | some g => if g = "" then df else df.filter fun r => r.genre == g
    | none => df
  match country with
  | some c => if c = "" then df1 else df1.filter fun r => r.country == c
  | none => df1

/-- The rows the `/analyze` handler retains after loading, cleaning and
filtering by the submitted `genre` and `country` form fields. -/
def retained (rows : List RawRow) (form : List (String × String)) : List Row :=
  filterByForm (load_and_preprocess_data rows)
    (formGet form "genre") (formGet form "country")

/-- The data handed to `render_template('results.html', ...)` by the
`/analyze` handler: the two numeric breakdown tables, the pivot table, and
the three image links. -/
structure Response where
  genre_ratings : List (String × Option ℚ)
  country_ratings : List (String × Option ℚ)
  genre_country_ratings : String → String → Option ℚ
  genre_plot : String
  heatmap_plot : String
  boxplot_plot : String

/-- The response computation of the `/analyze` handler after the dataframe has
been loaded: filter by the two form values, run `analyze_ratings`, and fill
the template context (the three image paths are the fixed files written by
`generate_plots`). -/
def analyzeCore (df : List Row) (genre country : Option String) : Response :=
  let fdf := filterByForm df genre country
  { genre_ratings := (analyze_ratings fdf).1
    country_ratings := (analyze_ratings fdf).2.1
    genre_country_ratings := (analyze_ratings fdf).2.2
    genre_plot := "static/genre_ratings.png"
    heatmap_plot := "static/genre_country_heatmap.png"
    boxplot_plot := "static/genre_boxplot.png" }

/-- The `/analyze` handler `analyze` from `main.py` on the happy path: read
the `genre` and `country` form fields, load and clean the CSV rows, filter,
aggregate, render. (`generate_plots` only writes chart files; its effect on
the filesystem is modelled separately in `handle` and `analyzeE`.) -/
def analyze (rows : List RawRow) (form : List (String × String)) : Response :=
  analyzeCore (load_and_preprocess_data rows)
    (formGet form "genre") (formGet form "country")

/-- Looking an entry up in a breakdown table (what `series.to_dict()[k]`
retrieves). -/
def seriesLookup (s : List (String × Option ℚ)) (k : String) : Option (Option ℚ) :=
  s.lookup k

/-- An exception raised by one of the libraries the script calls (pandas on a
missing file, matplotlib/seaborn while plotting, ...). The script defines no
error taxonomy of its own. -/
inductive PyError where
  | fileNotFound (path : String) : PyError
  | exception (msg : String) : PyError
deriving DecidableEq

/-- `load_and_preprocess_data` with its fallible `pd.read_csv` call made
explicit: the function contains no `try/except`, so a read failure propagates
unchanged and the cleaning only runs on a successful read. -/
def load_and_preprocess_dataE (readResult : Except PyError (List RawRow)) :
    Except PyError (List Row) := do
  let rows ← readResult
  pure (load_and_preprocess_data rows)

/-- The `/analyze` handler with its fallible steps made explicit: reading the
CSV (`readResult`) and chart generation (`generate_plots`). The handler
contains no `try/except`, so the first failure propagates unchanged and no
partial result page is produced. -/
def analyzeE (readResult : Except PyError (List RawRow))
    (generate_plots : List Row → Except PyError Unit)
    (form : List (String × String)) : Except PyError Response := do
  let df ← load_and_preprocess_dataE readResult
  let _ ← generate_plots df
  pure (analyzeCore df (formGet form "genre") (formGet form "country"))

/-- The only mutable state a request leaves behind: the three chart files in
`static/`, abstracted as the cleaned dataframe they were last drawn from. -/
structure ServerState where
  plotted : Option (List Row)

/-- Processing one POST `/analyze` request: the handler recomputes everything
from the CSV file and the form, overwrites the chart files, and builds the
response without reading any carried-over state. -/
def handle (fileRows : List RawRow) (st : ServerState)
    (form : List (String × String)) : Response × ServerState :=
  (analyze fileRows form, { plotted := some (load_and_preprocess_data fileRows) })

/-- Processing a sequence of requests against a fixed CSV file, threading the
server state through. -/
def runServer (fileRows : List RawRow) (st : ServerState) :
    List (List (String × String)) → List Response
  | [] => []
  | form :: rest =>
      (handle fileRows st form).1 :: runServer fileRows (handle fileRows st form).2 rest

/-- The rows of `df` with genre `g`. -/
def rowsWithGenre (df : List Row) (g : String) : List Row :=
  df.filter fun r => r.genre == g

/-- The rows of `df` with country `c`. -/
def rowsWithCountry (df : List Row) (c : String) : List Row :=
  df.filter fun r => r.country == c

/-- Written from the spec sentence of C1: the arithmetic mean of
`vote_average` over all retained rows with genre `g` — undefined (`NaN`,
i.e. `none`) when there is no such row or when any such row carries a missing
value, as float arithmetic would propagate it. -/
def specArithMeanAll (df : List Row) (g : String) : Option ℚ :=
  let rs := rowsWithGenre df g
  if rs.isEmpty then none
  else if rs.all fun r => r.vote_average.isSome then
    some ((rs.filterMap Row.vote_average).sum / (rs.length : ℚ))
  else none

/-- The amended reading of C1 for the genre table: the arithmetic mean of the
numeric (non-`NaN`) `vote_average` values over the retained rows with genre
`g`. -/
def specMeanPresentGenre (df : List Row) (g : String) : Option ℚ :=
  let vs := (rowsWithGenre df g).filterMap Row.vote_average
  if vs.isEmpty then none else some (vs.sum / (vs.length : ℚ))

/-- The amended reading of C1 for the country table. -/
def specMeanPresentCountry (df : List Row) (c : String) : Option ℚ :=
  let vs := (rowsWithCountry df c).filterMap Row.vote_average
  if vs.isEmpty then none else some (vs.sum / (vs.length : ℚ))

/-- The amended reading of C1 for the pivot table entry `(g, c)`. -/
def specMeanPresentGC (df : List Row) (g c : String) : Option ℚ :=
  let vs := ((df.filter fun r => r.genre == g && r.country == c).filterMap
    Row.vote_average)
  if vs.isEmpty then none else some (vs.sum / (vs.length : ℚ))

/-- Concrete input for the C1 counterexample: two rows of genre `Action`, one
with a present but non-numeric `vote_average`. -/
def c1raw : List RawRow :=
  [⟨Cell.str "seven", some "Action", some "USA"⟩,
   ⟨Cell.num 4, some "Action", some "USA"⟩]

/-- Concrete input for the C1 amended-claim witness (numeric-free votes). -/
def c1wraw : List RawRow := [⟨Cell.str "seven", some "Action", some "USA"⟩]

/-- Concrete input for the C2 counterexample: a single row whose
`vote_average` is present but non-numeric. -/
def c2raw : List RawRow := [⟨Cell.str "seven", some "Drama", some "India"⟩]

/-- Concrete input for the C8 witness: a row originally labelled
`United States`. -/
def c8raw : List RawRow := [⟨Cell.str "5", some "Drama", some "United States"⟩]

/-- Concrete form for the C8 witness. -/
def c8form : List (String × String) := [("country", "United States")]

end MovieRatings

namespace IrisScript

/-- The iris dataset as returned by `load_iris()`: the feature matrix
`iris.data` and the label vector `iris.target`. The built-in dataset has 150
samples with labels in `{0, 1, 2}`. -/
structure IrisData where
  data : List (List ℚ)
  target : List ℕ

/-- The number of test samples chosen by `train_test_split(test_size=0.2)`:
`ceil(0.2 * n)`. (`(n + 4) / 5` is `⌈n / 5⌉` in exact arithmetic; for the
script's `n = 150` the binary-float product `0.2 * 150` rounds to `30.0`, so
this matches the library.) -/
def n_test (n : ℕ) : ℕ := (n + 4) / 5

/-- `train_test_split(X, y, test_size=0.2, random_state=42)`. The library
shuffles the indices `0, ..., n-1` with a seed-determined permutation
(`shuffled`), takes the first `n_test` shuffled indices as the test set and
the rest as the training set, and returns
`(X_train, X_test, y_train, y_test)`. -/
def train_test_split (X : List (List ℚ)) (y : List ℕ) (shuffled : List ℕ) :
    List (List ℚ) × List (List ℚ) × List ℕ × List ℕ :=
  let k := n_test X.length
  let testIdx := shuffled.take k
  let trainIdx := shuffled.drop k
  (trainIdx.map (fun i => X.getD i []), testIdx.map (fun i => X.getD i []),
   trainIdx.map (fun i => y.getD i 0), testIdx.map (fun i => y.getD i 0))

/-- A fitted `KNeighborsClassifier`: `fit` only stores the training data,
together with the `n_neighbors` hyperparameter. -/
structure KNeighborsClassifier where
  n_neighbors : ℕ
  X_fit : List (List ℚ)
  y_fit : List ℕ
deriving DecidableEq

/-- `model.fit(X_train, y_train)` for `KNeighborsClassifier(n_neighbors=k)`. -/
def fit (k : ℕ) (X : List (List ℚ)) (y : List ℕ) : KNeighborsClassifier :=
  ⟨k, X, y⟩

/-- Squared euclidean distance between two feature vectors. -/
def sqDist (a b : List ℚ) : ℚ :=
  (List.zipWith (fun x y => (x - y) ^ 2) a b).sum

/-- Ordering of (distance, label) pairs by distance, used to pick the nearest
neighbours. -/
def distRel (a b : ℚ × ℕ) : Prop := a.1 ≤ b.1

instance : DecidableRel distRel :=
  fun a b => inferInstanceAs (Decidable (a.1 ≤ b.1))

/-- `np.argmax(np.bincount(labels))`: the smallest label attaining the
maximal count (scipy's mode, used by `KNeighborsClassifier.predict`). -/
def majorityLabel (ls : List ℕ) : ℕ :=
  (List.range (ls.foldr max 0 + 1)).foldl
    (fun best v => if ls.count best < ls.count v then v else best) 0

/-- `model.predict` on a single sample: the majority label among the
`n_neighbors` training points closest to `x` (stable sort, so distance ties
break by training index, as `argsort` does). -/
def predict (m : KNeighborsClassifier) (x : List ℚ) : ℕ :=
  let neighbors :=
    List.insertionSort distRel ((m.X_fit.zip m.y_fit).map fun p => (sqDist p.1 x, p.2))
  majorityLabel ((neighbors.take m.n_neighbors).map Prod.snd)

/-- `model.score(X_test, y_test)`: the mean over the test samples of the
indicator that the predicted label equals the true label. -/
def score (m : KNeighborsClassifier) (X_test : List (List ℚ)) (y_test : List ℕ) : ℚ :=
  (((X_test.map (predict m)).zip y_test).map
      fun p => if p.1 = p.2 then (1 : ℚ) else 0).sum / (y_test.length : ℚ)

/-- The body of `iris-classifier.py` up to the accuracy value: split the
dataset (with the seed-determined shuffle `shuffled`), fit a 3-NN classifier
on the training part only, and score it on the test part. -/
def iris_classifier (iris : IrisData) (shuffled : List ℕ) : ℚ :=
  match train_test_split iris.data iris.target shuffled with
  | (X_train, X_test, y_train, y_test) => score (fit 3 X_train y_train) X_test y_test

/-- The character for the decimal digit `d % 10`. -/
def digitChar (d : ℕ) : Char := Char.ofNat (48 + d % 10)

/-- Decimal digits of `n`, most significant first (empty for `0`); the fuel
argument bounds the recursion depth and `fuel = n` always suffices. -/
def natReprAux : ℕ → ℕ → List Char
  | 0, _ => []
  | fuel + 1, n => if n = 0 then [] else natReprAux fuel (n / 10) ++ [digitChar n]

/-- Decimal rendering of a natural number. -/
def natRepr (n : ℕ) : String :=
  if n = 0 then ⟨[digitChar 0]⟩ else ⟨natReprAux n n⟩

/-- Rounding to the nearest integer, halves up: `⌊q + 1/2⌋`. -/
def roundHalfUp (q : ℚ) : ℤ := Int.fdiv (2 * q.num + (q.den : ℤ)) (2 * (q.den : ℤ))

/-- The two fractional digits of a fixed-point rendering: `b` (taken mod 100)
as exactly two digit characters. -/
def twoPad (b : ℕ) : String := ⟨[digitChar (b / 10), digitChar b]⟩

/-- Python's `f'{q:.2f}'` for the nonnegative values the script produces:
round `q` to two decimal places and render `intpart.dddd` with exactly two
fractional digits. (Python rounds the underlying double half-to-even; every
accuracy percentage the script can print is `k * 10 / 3` with `k ≤ 30`, whose
two-decimal rounding is never a tie nor within the double's error of one, so
half-up on the exact rational agrees with the library.) -/
def formatFixed2 (q : ℚ) : String :=
  natRepr ((roundHalfUp (q * 100)).toNat / 100) ++ "." ++
    twoPad ((roundHalfUp (q * 100)).toNat % 100)

/-- The full standard output of `iris-classifier.py`, as a list of lines: the
single `print(f'Accuracy: {accuracy*100:.2f}%')`. -/
def iris_output (iris : IrisData) (shuffled : List ℕ) : List String :=
  ["Accuracy: " ++ formatFixed2 (iris_classifier iris shuffled * 100) ++ "%"]

/-- The number of characters after the first `.` of a string. -/
def fracLen (s : String) : ℕ :=
  ((s.data.dropWhile fun c => !(c == '.')).drop 1).length

/-- A concrete 150-sample dataset of the iris shape, for witnesses. -/
def irisDemo : IrisData :=
  { data := List.replicate 150 [0, 0, 0, 0], target := List.replicate 150 0 }

end IrisScript

namespace MovieRatings

/-- Characterization of the rows surviving `load_and_preprocess_data`: a row
is returned exactly when it comes from a raw row with all three columns
present, with the country normalized and the vote coerced. -/
theorem mem_load_iff {rows : List RawRow} {r : Row} :
    r ∈ load_and_preprocess_data rows ↔
      ∃ raw, raw ∈ rows ∧ raw.vote_average ≠ Cell.na ∧
        (∃ g, raw.genre = some g ∧ r.genre = g) ∧
        (∃ c, raw.country = some c ∧ r.country = replaceCountry c) ∧
        r.vote_average = toNumericCoerce raw.vote_average := by
  unfold load_and_preprocess_data
  rw [List.mem_filterMap]
  constructor
  · rintro ⟨raw, hmem, hf⟩
    refine ⟨raw, hmem, ?_⟩
    rcases hg : raw.genre with _ | g <;> rcases hc : raw.country with _ | c <;>
      simp [hg, hc] at hf
    rcases hf with ⟨hna, hf⟩
    obtain ⟨rv, rg, rc⟩ := r
    simp only [Row.mk.injEq] at hf
    exact ⟨hna, ⟨g, rfl, hf.2.1.symm⟩, ⟨c, rfl, hf.2.2.symm⟩, hf.1.symm⟩
  · rintro ⟨raw, hmem, hna, ⟨g, hg, hrg⟩, ⟨c, hc, hrc⟩, hv⟩
    refine ⟨raw, hmem, ?_⟩
    obtain ⟨rv, rg, rc⟩ := r
    simp only at hrg hrc hv
    simp [hg, hc, hna, hrg, hrc, hv]

end MovieRatings

namespace MovieRatings

/-- The country normalization never outputs the long-form names. -/
theorem replaceCountry_ne (c : String) :
    replaceCountry c ≠ "United States" ∧ replaceCountry c ≠ "United Kingdom" := by
  unfold replaceCountry
  split_ifs with h1 h2
  · constructor <;> decide
  · constructor <;> decide
  · exact ⟨h1, h2⟩

/-- C2 counterexample: on a table whose single row has a present but
non-numeric `vote_average`, the row is NOT dropped — it survives cleaning
with `vote_average` coerced to `NaN` (`none`), so the claim that every
returned row has a well-formed numeric `vote_average` fails. -/
theorem C2_cex :
    ¬ (∀ r ∈ load_and_preprocess_data c2raw, r.vote_average.isSome) ∧
      load_and_preprocess_data c2raw =
        [{ vote_average := none, genre := "Drama", country := "India" }] := by
  constructor
  · intro h
    have := h { vote_average := none, genre := "Drama", country := "India" } (by decide)
    simp at this
  · decide

/-- C2 amended: every row returned by `load_and_preprocess_data` originates
from a raw row with `vote_average`, `genre` and `country` all present (rows
with a missing value in these columns are silently dropped), and its vote is
the numeric coercion of the raw cell — in particular a raw numeric vote is
kept as is, while a present but non-numeric vote is coerced to `NaN` and the
row remains in the result. -/
theorem C2_dropped_rows_amended (rows : List RawRow) (r : Row)
    (hr : r ∈ load_and_preprocess_data rows) :
    ∃ raw, raw ∈ rows ∧
      raw.vote_average ≠ Cell.na ∧ raw.genre ≠ none ∧ raw.country ≠ none ∧
      r.vote_average = toNumericCoerce raw.vote_average ∧
      (∀ q, raw.vote_average = Cell.num q → r.vote_average = some q) ∧
      (∀ s, raw.vote_average = Cell.str s → r.vote_average = none) := by
  obtain ⟨raw, hmem, hna, ⟨g, hg, _⟩, ⟨c, hc, _⟩, hv⟩ := mem_load_iff.mp hr
  refine ⟨raw, hmem, hna, by simp [hg], by simp [hc], hv, ?_, ?_⟩
  · intro q hq
    rw [hv, hq]
    rfl
  · intro s hs
    rw [hv, hs]
    rfl

/-- C2 amended, concrete witness: the non-numeric row of `c2raw`. -/
theorem C2_dropped_rows_amended_witness :
    ∃ raw, raw ∈ c2raw ∧
      raw.vote_average ≠ Cell.na ∧ raw.genre ≠ none ∧ raw.country ≠ none ∧
      ({ vote_average := none, genre := "Drama", country := "India" } : Row).vote_average =
        toNumericCoerce raw.vote_average ∧
      (∀ q, raw.vote_average = Cell.num q →
        ({ vote_average := none, genre := "Drama", country := "India" } : Row).vote_average = some q) ∧
      (∀ s, raw.vote_average = Cell.str s →
        ({ vote_average := none, genre := "Drama", country := "India" } : Row).vote_average = none) :=
  C2_dropped_rows_amended c2raw
    { vote_average := none, genre := "Drama", country := "India" } (by decide)

/-- C8: the cleaned dataframe never contains the literal country values
`United States` or `United Kingdom` (they are rewritten to `USA` and `UK`),
so a POST to `/analyze` whose `country` field is `United States` filters
against the normalized values and retains no row at all: both breakdown
tables come out empty. -/
theorem C8_country_normalized (rows : List RawRow) (form : List (String × String)) (r : Row)
    (hr : r ∈ load_and_preprocess_data rows)
    (hform : formGet form "country" = some "United States") :
    (r.country ≠ "United States" ∧ r.country ≠ "United Kingdom") ∧
      retained rows form = [] ∧
      (analyze rows form).genre_ratings = [] ∧
      (analyze rows form).country_ratings = [] := by
  have hall : ∀ x ∈ load_and_preprocess_data rows,
      x.country ≠ "United States" ∧ x.country ≠ "United Kingdom" := by
    intro x hx
    obtain ⟨raw, _, _, _, ⟨c, _, hrc⟩, _⟩ := mem_load_iff.mp hx
    rw [hrc]
    exact replaceCountry_ne c
  have hretained : retained rows form = [] := by
    unfold retained filterByForm
    rw [hform]
    have hne : ("United States" : String) = "" → False := by decide
    simp only [if_neg hne]
    rw [List.filter_eq_nil_iff]
    intro a ha
    have hmem : a ∈ load_and_preprocess_data rows := by
      rcases hgen : formGet form "genre" with _ | g
      · simpa [hgen] using ha
      · simp only [hgen] at ha
        split_ifs at ha with h
        · exact ha
        · exact (List.mem_filter.mp ha).1
    have := (hall a hmem).1
    simp [this]
  refine ⟨hall r hr, hretained, ?_, ?_⟩
  · show (analyze_ratings (retained rows form)).1 = []
    rw [hretained]
    rfl
  · show (analyze_ratings (retained rows form)).2.1 = []
    rw [hretained]
    rfl

/-- C8 witness: a concrete table whose single row is labelled
`United States`, and a form submitting `country=United States`. -/
theorem C8_country_normalized_witness :
    retained c8raw c8form = [] :=
  (C8_country_normalized c8raw c8form
    { vote_average := none, genre := "Drama", country := "USA" } (by decide) rfl).2.1

end MovieRatings

namespace MovieRatings

/-- C3: the web application registers exactly two routes — the home page
(GET `/`, a static form) and POST `/analyze`; the `/analyze` handler reads
the form only through its `genre` and `country` fields, and its response
carries the two numeric breakdown tables of the filtered data together with
the three image links written by `generate_plots`. -/
theorem C3_routes :
    routes.length = 2 ∧
    routes = [("/", [Method.GET]), ("/analyze", [Method.POST])] ∧
    index_page = "index.html" ∧
    (∀ rows form form2,
        formGet form "genre" = formGet form2 "genre" →
        formGet form "country" = formGet form2 "country" →
        analyze rows form = analyze rows form2) ∧
    (∀ rows form,
        (analyze rows form).genre_ratings = (analyze_ratings (retained rows form)).1 ∧
        (analyze rows form).country_ratings = (analyze_ratings (retained rows form)).2.1 ∧
        (analyze rows form).genre_plot = "static/genre_ratings.png" ∧
        (analyze rows form).heatmap_plot = "static/genre_country_heatmap.png" ∧
        (analyze rows form).boxplot_plot = "static/genre_boxplot.png") := by
  refine ⟨rfl, rfl, rfl, ?_, ?_⟩
  · intro rows form form2 hg hc
    unfold analyze
    rw [hg, hc]
  · intro rows form
    exact ⟨rfl, rfl, rfl, rfl, rfl⟩

/-- C3 witness: two concrete forms agreeing on the `genre` and `country`
fields produce the same response. -/
theorem C3_routes_witness :
    analyze [] [("genre", "Drama"), ("extra", "x")] = analyze [] [("genre", "Drama")] :=
  C3_routes.2.2.2.1 [] [("genre", "Drama"), ("extra", "x")] [("genre", "Drama")] rfl rfl

/-- The server's response list is a pure per-request map: the state the
handler writes (the chart files) is never read when building a response. -/
theorem runServer_eq_map (fileRows : List RawRow) (st : ServerState)
    (reqs : List (List (String × String))) :
    runServer fileRows st reqs = reqs.map (analyze fileRows) := by
  induction reqs generalizing st with
  | nil => rfl
  | cons form rest ih => simp [runServer, handle, ih]

/-- C5: a dataframe is loaded, filtered, and discarded per request — the
response to a POST `/analyze` request is determined by the CSV file contents
and the submitted form alone, identical regardless of the initial server
state and of whatever requests were processed before it. -/
theorem C5_request_independence (fileRows : List RawRow) (st1 st2 : ServerState)
    (hist1 hist2 : List (List (String × String))) (form : List (String × String)) :
    (runServer fileRows st1 (hist1 ++ [form])).getLast? = some (analyze fileRows form) ∧
    (runServer fileRows st1 (hist1 ++ [form])).getLast? =
      (runServer fileRows st2 (hist2 ++ [form])).getLast? := by
  have h : ∀ st hist, (runServer fileRows st (hist ++ [form])).getLast? =
      some (analyze fileRows form) := by
    intro st hist
    rw [runServer_eq_map, List.map_append]
    exact List.getLast?_concat _
  exact ⟨h st1 hist1, (h st1 hist1).trans (h st2 hist2).symm⟩

/-- C6: neither `load_and_preprocess_data` nor the `/analyze` handler
contains a `try/except` — if reading the CSV fails, or chart generation
raises after a successful read, the library's exception propagates to the
caller unchanged and no result page is produced. -/
theorem C6_error_propagation (e : PyError)
    (generate_plots : List Row → Except PyError Unit)
    (form : List (String × String)) (readResult : Except PyError (List RawRow))
    (h : readResult = Except.error e ∨
      ∃ rows, readResult = Except.ok rows ∧
        generate_plots (load_and_preprocess_data rows) = Except.error e) :
    analyzeE readResult generate_plots form = Except.error e ∧
    load_and_preprocess_dataE (Except.error e) = Except.error e := by
  refine ⟨?_, rfl⟩
  rcases h with rfl | ⟨rows, rfl, hplots⟩
  · rfl
  · simp [analyzeE, load_and_preprocess_dataE, hplots, Bind.bind, Except.bind,
      Except.map, Functor.map, Pure.pure, Except.pure]

/-- C6 witness: a missing CSV file aborts the handler with the library's
exception. -/
theorem C6_error_propagation_witness :
    analyzeE (Except.error (PyError.fileNotFound "path/to/imdb_dataset.csv"))
        (fun _ => Except.ok ()) [] =
      Except.error (PyError.fileNotFound "path/to/imdb_dataset.csv") :=
  (C6_error_propagation (PyError.fileNotFound "path/to/imdb_dataset.csv")
    (fun _ => Except.ok ()) [] _ (Or.inl rfl)).1

end MovieRatings

namespace MovieRatings

/-- C9: both breakdown tables returned by `analyze_ratings` are sorted in
non-increasing order of average rating; a `NaN` mean (`none`, read as `⊥`)
sorts after every number, matching pandas' `na_position='last'`. -/
theorem C9_tables_sorted_desc (df : List Row) :
    List.Chain' (fun a b => ratingVal b ≤ ratingVal a) (analyze_ratings df).1 ∧
    List.Chain' (fun a b => ratingVal b ≤ ratingVal a) (analyze_ratings df).2.1 :=
  ⟨List.Pairwise.chain' (List.sorted_insertionSort descRel _),
   List.Pairwise.chain' (List.sorted_insertionSort descRel _)⟩

/-- The amended per-genre mean coincides with the value pandas computes for
the group. -/
theorem specMeanPresentGenre_eq (df : List Row) (g : String) :
    specMeanPresentGenre df g = meanSkipNa (votesFor df Row.genre g) := by
  unfold specMeanPresentGenre meanSkipNa votesFor rowsWithGenre
  simp [List.filterMap_map]

/-- The amended per-country mean coincides with the value pandas computes
for the group. -/
theorem specMeanPresentCountry_eq (df : List Row) (c : String) :
    specMeanPresentCountry df c = meanSkipNa (votesFor df Row.country c) := by
  unfold specMeanPresentCountry meanSkipNa votesFor rowsWithCountry
  simp [List.filterMap_map]

/-- The amended pivot entry coincides with the value pandas computes for the
genre × country cell. -/
theorem specMeanPresentGC_eq (df : List Row) (g c : String) :
    specMeanPresentGC df g c = pivot_table_mean df g c := by
  unfold specMeanPresentGC pivot_table_mean meanSkipNa
  simp [List.filterMap_map]

/-- Every key occurring in the dataframe appears in the grouped-mean series
with its group mean. -/
theorem groupbyMean_mem {df : List Row} {key : Row → String} {k : String}
    (hk : k ∈ df.map key) :
    (k, meanSkipNa (votesFor df key k)) ∈ groupbyMean df key := by
  unfold groupbyMean
  exact List.mem_map.mpr ⟨k, List.mem_dedup.mpr hk, rfl⟩

/-- Sorting by value does not change the entries of a series. -/
theorem sort_values_mem {s : List (String × Option ℚ)} {x : String × Option ℚ} :
    x ∈ sort_values_desc s ↔ x ∈ s :=
  (List.perm_insertionSort descRel s).mem_iff

/-- The keys of a sorted grouped-mean series are pairwise distinct, so the
series is a well-defined mapping from keys to means. -/
theorem groupbyMean_keys_nodup (df : List Row) (key : Row → String) :
    ((sort_values_desc (groupbyMean df key)).map Prod.fst).Nodup := by
  have hperm : ((sort_values_desc (groupbyMean df key)).map Prod.fst).Perm
      ((groupbyMean df key).map Prod.fst) :=
    (List.perm_insertionSort descRel _).map Prod.fst
  rw [hperm.nodup_iff]
  unfold groupbyMean
  have hcomp : (Prod.fst ∘ fun k : String => (k, meanSkipNa (votesFor df key k))) = id := by
    funext k
    rfl
  rw [List.map_map, hcomp, List.map_id]
  exact List.nodup_dedup (df.map key)

/-- C1 counterexample: after cleaning `c1raw` (no filter submitted), the
retained rows with genre `Action` are one `NaN` vote and one vote of `4`.
The genre table maps `Action` to `4` — the mean of the present votes — while
the arithmetic mean of `vote_average` over ALL retained `Action` rows is
undefined (`NaN`), so the claim as stated fails on this input. -/
theorem C1_cex :
    seriesLookup ((analyze c1raw []).genre_ratings) "Action" = some (some 4) ∧
    specArithMeanAll (retained c1raw []) "Action" = none ∧
    seriesLookup ((analyze c1raw []).genre_ratings) "Action" ≠
      some (specArithMeanAll (retained c1raw []) "Action") := by
  have htable : (analyze c1raw []).genre_ratings =
      [("Action", meanSkipNa [none, some 4])] := rfl
  have hmean : meanSkipNa [none, some (4 : ℚ)] = some 4 := by
    have h : (([none, some (4 : ℚ)] : List (Option ℚ)).filterMap id) = [4] := rfl
    unfold meanSkipNa
    rw [h]
    norm_num
  have h1 : seriesLookup ((analyze c1raw []).genre_ratings) "Action" = some (some 4) := by
    rw [htable, hmean]
    rfl
  have h2 : specArithMeanAll (retained c1raw []) "Action" = none := by decide
  refine ⟨h1, h2, ?_⟩
  rw [h1, h2]
  simp

/-- C1 amended: after the form filters, the genre table maps each occurring
genre `g` to the arithmetic mean of the numeric (non-`NaN`) `vote_average`
values of the retained rows with genre `g`; the country table does the same
per country; the pivot entry `(g, c)` is the same mean over the retained rows
with genre `g` and country `c`; and each table is a well-defined mapping
(pairwise-distinct keys). -/
theorem C1_grouped_mean_amended (rows : List RawRow) (form : List (String × String))
    (g c : String)
    (hg : g ∈ (retained rows form).map Row.genre)
    (hc : c ∈ (retained rows form).map Row.country) :
    (g, specMeanPresentGenre (retained rows form) g) ∈ (analyze rows form).genre_ratings ∧
    (c, specMeanPresentCountry (retained rows form) c) ∈ (analyze rows form).country_ratings ∧
    (∀ g2 c2, (analyze rows form).genre_country_ratings g2 c2 =
      specMeanPresentGC (retained rows form) g2 c2) ∧
    ((analyze rows form).genre_ratings.map Prod.fst).Nodup ∧
    ((analyze rows form).country_ratings.map Prod.fst).Nodup := by
  have hG : (analyze rows form).genre_ratings =
      sort_values_desc (groupbyMean (retained rows form) Row.genre) := rfl
  have hC : (analyze rows form).country_ratings =
      sort_values_desc (groupbyMean (retained rows form) Row.country) := rfl
  refine ⟨?_, ?_, ?_, ?_, ?_⟩
  · rw [hG, sort_values_mem, specMeanPresentGenre_eq]
    exact groupbyMean_mem hg
  · rw [hC, sort_values_mem, specMeanPresentCountry_eq]
    exact groupbyMean_mem hc
  · intro g2 c2
    exact (specMeanPresentGC_eq _ g2 c2).symm
  · rw [hG]
    exact groupbyMean_keys_nodup _ _
  · rw [hC]
    exact groupbyMean_keys_nodup _ _

/-- C1 amended, concrete witness: on `c1wraw` with an empty form, the genre
table carries the entry for `Action`. -/
theorem C1_grouped_mean_amended_witness :
    ("Action", specMeanPresentGenre (retained c1wraw []) "Action") ∈
      (analyze c1wraw []).genre_ratings :=
  (C1_grouped_mean_amended c1wraw [] "Action" "USA" (by decide) (by decide)).1

end MovieRatings

namespace IrisScript

/-- The sum of correctness indicators equals the number of correct pairs. -/
theorem sum_ite_eq_length_filter (l : List (ℕ × ℕ)) :
    (l.map fun p => if p.1 = p.2 then (1 : ℚ) else 0).sum =
      ((l.filter fun p => p.1 == p.2).length : ℚ) := by
  induction l with
  | nil => simp
  | cons a t ih =>
      by_cases h : a.1 = a.2
      · have hb : (a.1 == a.2) = true := beq_iff_eq.mpr h
        simp only [List.map_cons, List.sum_cons, List.filter_cons, hb, if_true,
          if_pos h, List.length_cons, ih]
        push_cast
        ring
      · have hb : (a.1 == a.2) = false := beq_eq_false_iff_ne.mpr h
        simp [List.filter_cons, h, hb, ih]

/-- Test-set and training-set sizes of the split, for a 150-sample dataset
and any seed-determined shuffle. -/
theorem train_test_split_lengths (X : List (List ℚ)) (y : List ℕ) (shuffled : List ℕ)
    (hX : X.length = 150) (hperm : shuffled.Perm (List.range 150)) :
    (train_test_split X y shuffled).2.1.length = 30 ∧
    (train_test_split X y shuffled).1.length = 120 ∧
    (train_test_split X y shuffled).2.2.2.length = 30 ∧
    (train_test_split X y shuffled).2.2.1.length = 120 := by
  have hlen : shuffled.length = 150 := by simpa using hperm.length_eq
  have hk : n_test X.length = 30 := by rw [hX]; rfl
  refine ⟨?_, ?_, ?_, ?_⟩ <;>
    simp [train_test_split, hk, hlen, List.length_take, List.length_drop]

/-- C4: the iris script splits the 150-sample dataset into 120 training and
30 test samples (20%), fits the 3-NN classifier on the training part only
(the fitted model stores exactly the training data), and its score is the
fraction of the 30 test samples whose predicted label equals the true
label. -/
theorem C4_pipeline (iris : IrisData) (shuffled : List ℕ)
    (hX : iris.data.length = 150) (_hy : iris.target.length = 150)
    (hperm : shuffled.Perm (List.range 150)) :
    ∃ X_train X_test y_train y_test,
      train_test_split iris.data iris.target shuffled = (X_train, X_test, y_train, y_test) ∧
      X_test.length = 30 ∧ X_train.length = 120 ∧
      y_test.length = 30 ∧ y_train.length = 120 ∧
      (fit 3 X_train y_train).X_fit = X_train ∧
      (fit 3 X_train y_train).y_fit = y_train ∧
      (fit 3 X_train y_train).n_neighbors = 3 ∧
      iris_classifier iris shuffled = score (fit 3 X_train y_train) X_test y_test ∧
      score (fit 3 X_train y_train) X_test y_test =
        ((((X_test.map (predict (fit 3 X_train y_train))).zip y_test).filter
            fun p => p.1 == p.2).length : ℚ) / 30 := by
  obtain ⟨hXte, hXtr, hyte, hytr⟩ :=
    train_test_split_lengths iris.data iris.target shuffled hX hperm
  refine ⟨(train_test_split iris.data iris.target shuffled).1,
    (train_test_split iris.data iris.target shuffled).2.1,
    (train_test_split iris.data iris.target shuffled).2.2.1,
    (train_test_split iris.data iris.target shuffled).2.2.2,
    rfl, hXte, hXtr, hyte, hytr, rfl, rfl, rfl, rfl, ?_⟩
  unfold score
  rw [sum_ite_eq_length_filter, hyte]
  norm_num

end IrisScript

namespace IrisScript

/-- C10: with the 150-sample dataset and `test_size=0.2`, the split gives
exactly 30 test and 120 training samples, and the printed accuracy
percentage is `k * 10/3` for some number `k ≤ 30` of correct test
predictions, hence lies in `[0, 100]`. -/
theorem C10_accuracy_quantized (iris : IrisData) (shuffled : List ℕ)
    (hX : iris.data.length = 150) (_hy : iris.target.length = 150)
    (hperm : shuffled.Perm (List.range 150)) :
    (train_test_split iris.data iris.target shuffled).2.1.length = 30 ∧
    (train_test_split iris.data iris.target shuffled).1.length = 120 ∧
    ∃ k : ℕ, k ≤ 30 ∧
      100 * iris_classifier iris shuffled = (k : ℚ) * (10 / 3) ∧
      0 ≤ 100 * iris_classifier iris shuffled ∧
      100 * iris_classifier iris shuffled ≤ 100 := by
  obtain ⟨hXte, hXtr, hyte, _⟩ :=
    train_test_split_lengths iris.data iris.target shuffled hX hperm
  refine ⟨hXte, hXtr, ?_⟩
  set Xtr := (train_test_split iris.data iris.target shuffled).1 with hXtrdef
  set Xte := (train_test_split iris.data iris.target shuffled).2.1 with hXtedef
  set ytr := (train_test_split iris.data iris.target shuffled).2.2.1 with hytrdef
  set yte := (train_test_split iris.data iris.target shuffled).2.2.2 with hytedef
  set k := (((Xte.map (predict (fit 3 Xtr ytr))).zip yte).filter
    fun p => p.1 == p.2).length with hkdef
  have hk30 : k ≤ 30 := by
    calc k ≤ ((Xte.map (predict (fit 3 Xtr ytr))).zip yte).length :=
          List.length_filter_le _ _
      _ ≤ yte.length := by
          rw [List.length_zip]
          exact min_le_right _ _
      _ = 30 := hyte
  have hacc : iris_classifier iris shuffled = (k : ℚ) / 30 := by
    have h1 : iris_classifier iris shuffled = score (fit 3 Xtr ytr) Xte yte := rfl
    rw [h1]
    unfold score
    rw [sum_ite_eq_length_filter, hyte]
    norm_num
  have hkQ : (k : ℚ) ≤ 30 := by exact_mod_cast hk30
  have hkQ0 : (0 : ℚ) ≤ (k : ℚ) := by positivity
  refine ⟨k, hk30, ?_, ?_, ?_⟩
  · rw [hacc]
    ring
  · rw [hacc]
    positivity
  · rw [hacc]
    linarith

/-- C10 witness: the concrete 150-sample dataset with the identity shuffle. -/
theorem C10_accuracy_quantized_witness :
    (train_test_split irisDemo.data irisDemo.target (List.range 150)).2.1.length = 30 ∧
    (train_test_split irisDemo.data irisDemo.target (List.range 150)).1.length = 120 ∧
    ∃ k : ℕ, k ≤ 30 ∧
      100 * iris_classifier irisDemo (List.range 150) = (k : ℚ) * (10 / 3) ∧
      0 ≤ 100 * iris_classifier irisDemo (List.range 150) ∧
      100 * iris_classifier irisDemo (List.range 150) ≤ 100 :=
  C10_accuracy_quantized irisDemo (List.range 150) (by simp [irisDemo])
    (by simp [irisDemo]) (List.Perm.refl _)

/-- C4 witness: the pipeline facts at the concrete 150-sample dataset with
the identity shuffle. -/
theorem C4_pipeline_witness :
    ∃ X_train X_test y_train y_test,
      train_test_split irisDemo.data irisDemo.target (List.range 150) =
        (X_train, X_test, y_train, y_test) ∧
      X_test.length = 30 ∧ X_train.length = 120 ∧
      y_test.length = 30 ∧ y_train.length = 120 ∧
      (fit 3 X_train y_train).X_fit = X_train ∧
      (fit 3 X_train y_train).y_fit = y_train ∧
      (fit 3 X_train y_train).n_neighbors = 3 ∧
      iris_classifier irisDemo (List.range 150) =
        score (fit 3 X_train y_train) X_test y_test ∧
      score (fit 3 X_train y_train) X_test y_test =
        ((((X_test.map (predict (fit 3 X_train y_train))).zip y_test).filter
            fun p => p.1 == p.2).length : ℚ) / 30 :=
  C4_pipeline irisDemo (List.range 150) (by simp [irisDemo]) (by simp [irisDemo])
    (List.Perm.refl _)

/-- If every character of the first list fails to stop `dropWhile`, the scan
continues into the second list. -/
theorem dropWhile_append_of_forall {p : Char → Bool} {l1 l2 : List Char}
    (h : ∀ c ∈ l1, p c = true) :
    (l1 ++ l2).dropWhile p = l2.dropWhile p := by
  induction l1 with
  | nil => rfl
  | cons a t ih =>
      rw [List.cons_append, List.dropWhile_cons, if_pos (h a (List.mem_cons_self a t))]
      exact ih fun c hc => h c (List.mem_cons_of_mem a hc)

/-- Every character produced by `natReprAux` is a digit character. -/
theorem natReprAux_mem (fuel : ℕ) : ∀ n, ∀ c ∈ natReprAux fuel n, ∃ d, c = digitChar d := by
  induction fuel with
  | zero =>
      intro n c hc
      simp [natReprAux] at hc
  | succ f ih =>
      intro n c hc
      by_cases h : n = 0
      · simp [natReprAux, h] at hc
      · rw [natReprAux, if_neg h] at hc
        rcases List.mem_append.mp hc with hc | hc
        · exact ih (n / 10) c hc
        · rw [List.mem_singleton.mp hc]
          exact ⟨n, rfl⟩

/-- A digit character is never the decimal point. -/
theorem digitChar_ne_dot (d : ℕ) : digitChar d ≠ '.' := by
  have h : d % 10 < 10 := Nat.mod_lt _ (by norm_num)
  have hall : ∀ r, r < 10 → Char.ofNat (48 + r) ≠ '.' := by decide
  exact hall (d % 10) h

/-- The decimal rendering of a natural number contains no decimal point. -/
theorem natRepr_ne_dot (n : ℕ) : ∀ c ∈ (natRepr n).data, c ≠ '.' := by
  intro c hc
  unfold natRepr at hc
  by_cases h : n = 0
  · rw [if_pos h] at hc
    rw [List.mem_singleton.mp hc]
    exact digitChar_ne_dot 0
  · rw [if_neg h] at hc
    obtain ⟨d, rfl⟩ := natReprAux_mem n n c hc
    exact digitChar_ne_dot d

/-- Fixed-point formatting always renders exactly two digits after the
decimal point. -/
theorem fracLen_formatFixed2 (q : ℚ) : fracLen (formatFixed2 q) = 2 := by
  unfold formatFixed2 fracLen
  rw [String.data_append, String.data_append]
  have hdot : ("." : String).data = ['.'] := rfl
  have htwo : ∀ b : ℕ, (twoPad b).data = [digitChar (b / 10), digitChar b] := fun b => rfl
  rw [hdot, htwo, List.append_assoc]
  rw [dropWhile_append_of_forall]
  · rw [List.singleton_append, List.dropWhile_cons]
    simp
  · intro c hc
    have := natRepr_ne_dot _ c hc
    simp [this]

/-- C7: the iris script writes exactly one line to standard output, of the
form `Accuracy: P%` where `P` is the accuracy percentage `k * 10/3`
(`k ≤ 30` correct test predictions) rendered with exactly two digits after
the decimal point. -/
theorem C7_single_line_output (iris : IrisData) (shuffled : List ℕ)
    (hX : iris.data.length = 150) (_hy : iris.target.length = 150)
    (hperm : shuffled.Perm (List.range 150)) :
    (iris_output iris shuffled).length = 1 ∧
    ∃ k : ℕ, k ≤ 30 ∧
      iris_output iris shuffled =
        ["Accuracy: " ++ formatFixed2 ((k : ℚ) * (10 / 3)) ++ "%"] ∧
      fracLen (formatFixed2 ((k : ℚ) * (10 / 3))) = 2 := by
  obtain ⟨hXte, hXtr, hyte, _⟩ :=
    train_test_split_lengths iris.data iris.target shuffled hX hperm
  set Xtr := (train_test_split iris.data iris.target shuffled).1 with hXtrdef
  set Xte := (train_test_split iris.data iris.target shuffled).2.1 with hXtedef
  set ytr := (train_test_split iris.data iris.target shuffled).2.2.1 with hytrdef
  set yte := (train_test_split iris.data iris.target shuffled).2.2.2 with hytedef
  set k := (((Xte.map (predict (fit 3 Xtr ytr))).zip yte).filter
    fun p => p.1 == p.2).length with hkdef
  have hk30 : k ≤ 30 := by
    calc k ≤ ((Xte.map (predict (fit 3 Xtr ytr))).zip yte).length :=
          List.length_filter_le _ _
      _ ≤ yte.length := by
          rw [List.length_zip]
          exact min_le_right _ _
      _ = 30 := hyte
  have hacc : iris_classifier iris shuffled = (k : ℚ) / 30 := by
    have h1 : iris_classifier iris shuffled = score (fit 3 Xtr ytr) Xte yte := rfl
    rw [h1]
    unfold score
    rw [sum_ite_eq_length_filter, hyte]
    norm_num
  have hpct : iris_classifier iris shuffled * 100 = (k : ℚ) * (10 / 3) := by
    rw [hacc]
    ring
  refine ⟨rfl, k, hk30, ?_, fracLen_formatFixed2 _⟩
  unfold iris_output
  rw [hpct]

/-- C7 witness: the concrete 150-sample dataset with the identity shuffle. -/
theorem C7_single_line_output_witness :
    (iris_output irisDemo (List.range 150)).length = 1 ∧
    ∃ k : ℕ, k ≤ 30 ∧
      iris_output irisDemo (List.range 150) =
        ["Accuracy: " ++ formatFixed2 ((k : ℚ) * (10 / 3)) ++ "%"] ∧
      fracLen (formatFixed2 ((k : ℚ) * (10 / 3))) = 2 :=
  C7_single_line_output irisDemo (List.range 150) (by simp [irisDemo])
    (by simp [irisDemo]) (List.Perm.refl _)

end IrisScript
